import Mathlib

/-!
Verification of the railwayBackend service (`src/main.py`).

The live module defines a FastAPI app with a startup hook that logs the
presence of three environment variables and a `GET /check_env/` endpoint
reporting the same presence information.  The same file carries, as a
commented-out revision, the full `POST /upload_pdf/` pipeline
(`extract_text_from_pdf`, `get_embedding`, `hash_content`, `upload_pdf`);
that revision is the only source for the upload behaviour and is embedded
here as written.

Modelling conventions:
* the process environment is a function `String → Option String`
  (`os.getenv` returns `None` for an absent variable);
* Python truthiness of an optional string (`if value:`) is `pyTruthy`;
* external collaborators (the PDF parser, the Supabase client, the
  OpenAI embedding API) are oracle functions collected in `Extern`,
  returning `Except String _` where the `String` is the raised
  exception's message;
* a Python exception is `Exn`; `Exn.render` is `str(e)`
  (Starlette renders `HTTPException` as `"{status_code}: {detail}"`);
* the handler returns an `Outcome` (HTTP 200 body or error status with
  detail) together with a `Trace` recording which external calls were
  made and the exact row passed to the insert, so that claims about
  "no embedding call" or "no row inserted" are statable.
-/

/-- Python truthiness of `os.getenv`'s result: `None` and `""` are falsy. -/
def pyTruthy : Option String → Bool
  | none => false
  | some s => s ≠ ""

/-- `"set" if value else "NOT SET"` from `src/main.py` lines 13-15 and 24-26. -/
def setFlag (v : Option String) : String :=
  if pyTruthy v then "set" else "NOT SET"

/-- The three variable names probed by the service. -/
def envKeys : List String :=
  ["OPENAI_API_KEY", "SUPABASE_URL", "SUPABASE_SERVICE_ROLE_KEY"]

/-- `GET /check_env/` (`src/main.py` lines 17-27): reads the three
variables and returns the JSON object as an association list, preserving
the source's key order. -/
def check_env (env : String → Option String) : List (String × String) :=
  [("OPENAI_API_KEY", setFlag (env "OPENAI_API_KEY")),
   ("SUPABASE_URL", setFlag (env "SUPABASE_URL")),
   ("SUPABASE_SERVICE_ROLE_KEY", setFlag (env "SUPABASE_SERVICE_ROLE_KEY"))]

/-- The startup hook (`src/main.py` lines 11-15): logs one line per
variable and always completes; `Except.ok` is normal completion of the
coroutine, `Except.error` would be a raised exception aborting startup.
The body is three `logger.info` calls, none of which raises. -/
def startup_event (env : String → Option String) : Except String (List String) :=
  .ok ["OPENAI_API_KEY: " ++ setFlag (env "OPENAI_API_KEY"),
       "SUPABASE_URL: " ++ setFlag (env "SUPABASE_URL"),
       "SUPABASE_SERVICE_ROLE_KEY: " ++ setFlag (env "SUPABASE_SERVICE_ROLE_KEY")]

/-- C5: `GET /check_env/` returns an object with exactly the keys
`OPENAI_API_KEY`, `SUPABASE_URL`, `SUPABASE_SERVICE_ROLE_KEY`, in which a
value is `"NOT SET"` exactly when the variable is absent or empty and
`"set"` otherwise; the value depends only on presence/emptiness, never on
the variable's actual contents (the operation is a total pure function of
the environment, so it cannot fail and has no side effects). -/
theorem check_env_reports_presence (env env' : String → Option String) :
    (check_env env).map Prod.fst = envKeys ∧
    (∀ k v, (k, v) ∈ check_env env →
      (v = "NOT SET" ↔ (env k = none ∨ env k = some "")) ∧
      (v = "set" ↔ ¬(env k = none ∨ env k = some ""))) ∧
    ((∀ k ∈ envKeys, pyTruthy (env k) = pyTruthy (env' k)) →
      check_env env = check_env env') := by
  refine ⟨rfl, ?_, ?_⟩
  · intro k v hmem
    have hcases : (k, v) = ("OPENAI_API_KEY", setFlag (env "OPENAI_API_KEY")) ∨
        (k, v) = ("SUPABASE_URL", setFlag (env "SUPABASE_URL")) ∨
        (k, v) = ("SUPABASE_SERVICE_ROLE_KEY", setFlag (env "SUPABASE_SERVICE_ROLE_KEY")) := by
      simpa [check_env] using hmem
    have flag_iff : ∀ o : Option String,
        (setFlag o = "NOT SET" ↔ (o = none ∨ o = some "")) ∧
        (setFlag o = "set" ↔ ¬(o = none ∨ o = some "")) := by
      intro o
      match o with
      | none => simp [setFlag, pyTruthy]
      | some s =>
        by_cases hs : s = ""
        · subst hs; simp [setFlag, pyTruthy]
        · simp [setFlag, pyTruthy, hs]
    rcases hcases with h | h | h <;>
      (cases h; exact (flag_iff _).imp (fun a => a) (fun a => a))
  · intro hagree
    have h1 := hagree "OPENAI_API_KEY" (by simp [envKeys])
    have h2 := hagree "SUPABASE_URL" (by simp [envKeys])
    have h3 := hagree "SUPABASE_SERVICE_ROLE_KEY" (by simp [envKeys])
    simp [check_env, setFlag, h1, h2, h3]

/-- Witness for C5 at a concrete environment: with every variable absent,
all three values are `"NOT SET"`, and an environment agreeing on
presence (all absent vs. all empty) produces the same object. -/
theorem check_env_reports_presence_witness :
    (check_env (fun _ => none)).map Prod.fst = envKeys ∧
    check_env (fun _ => none) =
      [("OPENAI_API_KEY", "NOT SET"), ("SUPABASE_URL", "NOT SET"),
       ("SUPABASE_SERVICE_ROLE_KEY", "NOT SET")] ∧
    check_env (fun _ => none) = check_env (fun _ => some "") := by
  refine ⟨(check_env_reports_presence (fun _ => none) (fun _ => some "")).1, by decide, ?_⟩
  exact (check_env_reports_presence (fun _ => none) (fun _ => some "")).2.2
      (by intro k _; decide)

/-! ### SHA-256 (`hashlib.sha256(...).hexdigest()` in `hash_content`)

Executable FIPS 180-4 SHA-256 over byte lists; 32-bit words are `Nat`
reduced modulo `2 ^ 32`. -/

/-- Reduce to a 32-bit word. -/
def w32 (x : Nat) : Nat := x % 4294967296

/-- Right rotation of a 32-bit word by `n` places. -/
def rotr (n x : Nat) : Nat := w32 (x / 2 ^ n + x % 2 ^ n * 2 ^ (32 - n))

/-- Bitwise complement of a 32-bit word. -/
def bnot32 (x : Nat) : Nat := 4294967295 - w32 x

def ch32 (x y z : Nat) : Nat := (x &&& y) ^^^ (bnot32 x &&& z)

def maj32 (x y z : Nat) : Nat := (x &&& y) ^^^ (x &&& z) ^^^ (y &&& z)

def bigSigma0 (x : Nat) : Nat := rotr 2 x ^^^ rotr 13 x ^^^ rotr 22 x

def bigSigma1 (x : Nat) : Nat := rotr 6 x ^^^ rotr 11 x ^^^ rotr 25 x

def smallSigma0 (x : Nat) : Nat := rotr 7 x ^^^ rotr 18 x ^^^ x / 2 ^ 3

def smallSigma1 (x : Nat) : Nat := rotr 17 x ^^^ rotr 19 x ^^^ x / 2 ^ 10

/-- Binary search for an integer `e`-th root: the largest `n` in
`[lo, hi)` with `n ^ e ≤ x`, assuming `lo ^ e ≤ x < hi ^ e`. -/
def rootSearch (e x : Nat) : Nat → Nat → Nat → Nat
  | 0, lo, _ => lo
  | fuel + 1, lo, hi =>
      if hi ≤ lo + 1 then lo
      else
        let mid := (lo + hi) / 2
        if mid ^ e ≤ x then rootSearch e x fuel mid hi
        else rootSearch e x fuel lo mid

/-- Integer cube root of numbers below `2 ^ 108`. -/
def ncbrt (x : Nat) : Nat := rootSearch 3 x 64 0 (2 ^ 36)

/-- Integer square root of numbers below `2 ^ 70`. -/
def nsqrt (x : Nat) : Nat := rootSearch 2 x 64 0 (2 ^ 35)

/-- The first 64 primes, whose roots seed the SHA-256 constants. -/
def sha256Primes : List Nat :=
  [2, 3, 5, 7, 11, 13, 17, 19, 23, 29, 31, 37, 41, 43, 47, 53,
   59, 61, 67, 71, 73, 79, 83, 89, 97, 101, 103, 107, 109, 113, 127, 131,
   137, 139, 149, 151, 157, 163, 167, 173, 179, 181, 191, 193, 197, 199, 211, 223,
   227, 229, 233, 239, 241, 251, 257, 263, 269, 271, 277, 281, 283, 293, 307, 311]

/-- First 32 bits of the fractional part of the cube root of `p`
(FIPS 180-4 §4.2.2): `⌊∛(p · 2 ^ 96)⌋ mod 2 ^ 32`. -/
def fracCbrtWord (p : Nat) : Nat := ncbrt (p * 2 ^ 96) % 2 ^ 32

/-- First 32 bits of the fractional part of the square root of `p`
(FIPS 180-4 §5.3.3): `⌊√(p · 2 ^ 64)⌋ mod 2 ^ 32`. -/
def fracSqrtWord (p : Nat) : Nat := nsqrt (p * 2 ^ 64) % 2 ^ 32

/-- The 64 SHA-256 round constants: fractional cube roots of the first
64 primes. -/
def sha256K : List Nat := sha256Primes.map fracCbrtWord

/-- SHA-256 working state: eight 32-bit words. -/
structure Hash8 where
  a : Nat
  b : Nat
  c : Nat
  d : Nat
  e : Nat
  f : Nat
  g : Nat
  h : Nat

/-- Initial SHA-256 hash value: fractional square roots of the first
eight primes. -/
def sha256H0 : Hash8 :=
  ⟨fracSqrtWord 2, fracSqrtWord 3, fracSqrtWord 5, fracSqrtWord 7,
   fracSqrtWord 11, fracSqrtWord 13, fracSqrtWord 17, fracSqrtWord 19⟩

/-- One SHA-256 compression round with round constant `k` and schedule word `w`. -/
def sha256Round (s : Hash8) (k w : Nat) : Hash8 :=
  let t1 := w32 (s.h + bigSigma1 s.e + ch32 s.e s.f s.g + k + w)
  let t2 := w32 (bigSigma0 s.a + maj32 s.a s.b s.c)
  ⟨w32 (t1 + t2), s.a, s.b, s.c, w32 (s.d + t1), s.e, s.f, s.g⟩

/-- Big-endian 4-byte groups to 32-bit words. -/
def bytesToWords : List Nat → List Nat
  | a :: b :: c :: d :: rest =>
      (a * 16777216 + b * 65536 + c * 256 + d) :: bytesToWords rest
  | _ => []

/-- Extend the message schedule: `rws` is the schedule so far in reverse
(most recent word first); produces `n` further words. -/
def extendSched : Nat → List Nat → List Nat
  | 0, rws => rws
  | n + 1, rws =>
      let nw := w32 (smallSigma1 (rws.getD 1 0) + rws.getD 6 0 +
        smallSigma0 (rws.getD 14 0) + rws.getD 15 0)
      extendSched n (nw :: rws)

/-- The 64 schedule words of one 16-word block. -/
def sha256Schedule (block : List Nat) : List Nat :=
  (extendSched 48 block.reverse).reverse

/-- Componentwise 32-bit addition of hash states. -/
def addHash (s t : Hash8) : Hash8 :=
  ⟨w32 (s.a + t.a), w32 (s.b + t.b), w32 (s.c + t.c), w32 (s.d + t.d),
   w32 (s.e + t.e), w32 (s.f + t.f), w32 (s.g + t.g), w32 (s.h + t.h)⟩

/-- Compress one 64-byte block into the running hash state. -/
def sha256Compress (block : List Nat) (s : Hash8) : Hash8 :=
  let ws := sha256Schedule (bytesToWords block)
  addHash s ((sha256K.zip ws).foldl (fun st kw => sha256Round st kw.1 kw.2) s)

/-- Big-endian 8-byte encoding of a 64-bit length. -/
def be64 (n : Nat) : List Nat :=
  [n / 2 ^ 56 % 256, n / 2 ^ 48 % 256, n / 2 ^ 40 % 256, n / 2 ^ 32 % 256,
   n / 2 ^ 24 % 256, n / 2 ^ 16 % 256, n / 2 ^ 8 % 256, n % 256]

/-- SHA-256 padding: a `0x80` byte, zeros to 56 mod 64, then the bit length. -/
def sha256Pad (msg : List Nat) : List Nat :=
  msg ++ 0x80 :: List.replicate ((64 - (msg.length + 9) % 64) % 64) 0 ++
    be64 (8 * msg.length)

/-- Fold the compression function over `n` consecutive 64-byte blocks. -/
def processBlocksAux : Nat → List Nat → Hash8 → Hash8
  | 0, _, s => s
  | n + 1, bytes, s => processBlocksAux n (bytes.drop 64) (sha256Compress (bytes.take 64) s)

/-- Fold the compression function over all 64-byte blocks; the input is
already padded, so its length is a multiple of 64. -/
def processBlocks (bytes : List Nat) (s : Hash8) : Hash8 :=
  processBlocksAux (bytes.length / 64) bytes s

/-- Big-endian bytes of one 32-bit word. -/
def wordBytes (w : Nat) : List Nat :=
  [w / 16777216 % 256, w / 65536 % 256, w / 256 % 256, w % 256]

/-- Digest bytes of a final hash state. -/
def digestBytes (s : Hash8) : List Nat :=
  wordBytes s.a ++ wordBytes s.b ++ wordBytes s.c ++ wordBytes s.d ++
  wordBytes s.e ++ wordBytes s.f ++ wordBytes s.g ++ wordBytes s.h

/-- SHA-256 of a byte list. -/
def sha256 (msg : List Nat) : List Nat :=
  digestBytes (processBlocks (sha256Pad msg) sha256H0)

/-- Lowercase hex digit for `n < 16`. -/
def hexChar (n : Nat) : Char :=
  if n < 10 then Char.ofNat (48 + n) else Char.ofNat (87 + n)

/-- Two lowercase hex digits per byte, as `hexdigest` renders them. -/
def bytesToHexChars : List Nat → List Char
  | [] => []
  | b :: bs => hexChar (b / 16 % 16) :: hexChar (b % 16) :: bytesToHexChars bs

def bytesToHex (bs : List Nat) : String := String.mk (bytesToHexChars bs)

/-- UTF-8 encoding of one scalar value. -/
def utf8Char (c : Char) : List Nat :=
  let n := c.toNat
  if n < 128 then [n]
  else if n < 2048 then [192 + n / 64, 128 + n % 64]
  else if n < 65536 then [224 + n / 4096, 128 + n / 64 % 64, 128 + n % 64]
  else [240 + n / 262144, 128 + n / 4096 % 64, 128 + n / 64 % 64, 128 + n % 64]

/-- UTF-8 encoding of a string (`content.encode('utf-8')`). -/
def utf8Encode (s : String) : List Nat :=
  (s.data.map utf8Char).flatten

/-- `hash_content` (`src/main.py` lines 75-76):
`hashlib.sha256(content.encode('utf-8')).hexdigest()`. -/
def hash_content (content : String) : String :=
  bytesToHex (sha256 (utf8Encode content))


set_option maxRecDepth 100000 in
/-- FIPS 180-4 test vector: the digest of the empty message. -/
theorem sha256_empty_vector :
    hash_content "" = "e3b0c44298fc1c149afbf4c8996fb92427ae41e4649b934ca495991b7852b855" := by
  decide

set_option maxRecDepth 100000 in
/-- FIPS 180-4 test vector: the digest of `"abc"`. -/
theorem sha256_abc_vector :
    hash_content "abc" = "ba7816bf8f01cfea414140de5dae2223b00361a396177a9cb410ff61f20015ad" := by
  decide

theorem bytesToHexChars_length (bs : List Nat) :
    (bytesToHexChars bs).length = 2 * bs.length := by
  induction bs with
  | nil => rfl
  | cons b bs ih => simp [bytesToHexChars, ih]; ring

theorem sha256_length (msg : List Nat) : (sha256 msg).length = 32 := by
  simp [sha256, digestBytes, wordBytes]

theorem hexChar_mem_digits : ∀ n < 16, hexChar n ∈ ("0123456789abcdef").data := by
  decide

theorem bytesToHexChars_mem (bs : List Nat) :
    ∀ c ∈ bytesToHexChars bs, c ∈ ("0123456789abcdef").data := by
  induction bs with
  | nil => intro c hc; cases hc
  | cons b bs ih =>
    intro c hc
    rcases hc with _ | ⟨_, hc⟩
    · exact hexChar_mem_digits _ (Nat.mod_lt _ (by decide))
    · rcases hc with _ | ⟨_, hc⟩
      · exact hexChar_mem_digits _ (Nat.mod_lt _ (by decide))
      · exact ih c hc

/-- C9: `hash_content` returns the hexadecimal SHA-256 digest of the
input's UTF-8 encoding; it is deterministic (equal inputs give equal
digests), total (a Lean function, defined on every string), and its output
is always 64 lowercase hexadecimal characters. -/
theorem hash_content_sha256_hex (s : String) :
    hash_content s = bytesToHex (sha256 (utf8Encode s)) ∧
    (∀ t : String, s = t → hash_content s = hash_content t) ∧
    (hash_content s).length = 64 ∧
    (∀ c ∈ (hash_content s).data, c ∈ ("0123456789abcdef").data) := by
  refine ⟨rfl, fun t ht => by rw [ht], ?_, ?_⟩
  · show (bytesToHexChars (sha256 (utf8Encode s))).length = 64
    rw [bytesToHexChars_length, sha256_length]
  · exact bytesToHexChars_mem _

/-- Witness for C9 at concrete inputs: the digest of `"abc"` is the hex
rendering of its SHA-256, has 64 characters, and hashing `"Hello"` twice
agrees. -/
theorem hash_content_sha256_hex_witness :
    hash_content "abc" = bytesToHex (sha256 (utf8Encode "abc")) ∧
    (hash_content "abc").length = 64 ∧
    hash_content "Hello" = hash_content "Hello" :=
  ⟨(hash_content_sha256_hex "abc").1, (hash_content_sha256_hex "abc").2.2.1,
   (hash_content_sha256_hex "Hello").2.1 "Hello" rfl⟩

/-! ### The `POST /upload_pdf/` pipeline (`src/main.py` lines 59-120)

`extract_text_from_pdf` splits into the external per-page text recovery
(`PdfReader(...).pages` / `page.extract_text()`, the `extract_pages`
oracle) and the pure accumulation loop embedded below.  The Supabase and
OpenAI calls are oracles in `Extern`; `Except.error m` models the call
raising an exception whose message is `m`. -/

/-- Python `s.endswith(post)`: executable suffix test on the characters. -/
def strEndsWith (s post : String) : Bool :=
  post.data.isSuffixOf s.data

/-- Python ASCII whitespace as stripped by `str.strip()`. -/
def pyIsSpace (c : Char) : Bool :=
  c = ' ' || c = '\t' || c = '\n' || c = '\r' || c = '\x0b' || c = '\x0c'

/-- Python `s.strip()`: drop leading and trailing whitespace characters. -/
def pyStrip (s : String) : String :=
  String.mk (((s.data.dropWhile pyIsSpace).reverse.dropWhile pyIsSpace).reverse)

/-- The accumulation loop of `extract_text_from_pdf` (lines 61-65):
`text += text_page + "\n"` for each page whose recovered text is truthy
(non-empty). -/
def extractLoop : List String → String → String
  | [], text => text
  | p :: rest, text => extractLoop rest (if p = "" then text else text ++ p ++ "\n")

/-- `extract_text_from_pdf` (lines 59-66), given the per-page recovered
texts: run the loop from the empty accumulator, then `text.strip()`. -/
def extract_text_from_pdf (pages : List String) : String :=
  pyStrip (extractLoop pages "")

/-- Specification-side description of the concatenation (spec §4.3): each
page's text followed by a newline, pages recovering no text skipped. -/
def pageConcat : List String → String
  | [] => ""
  | p :: rest => if p = "" then pageConcat rest else p ++ "\n" ++ pageConcat rest

/-- A Python exception value as seen by `except Exception as e`. -/
inductive Exn where
  | http (status : Nat) (detail : String)
  | other (msg : String)
deriving DecidableEq

/-- `str(e)`: Starlette renders `HTTPException` as `"{status_code}: {detail}"`;
any other exception renders as its message. -/
def Exn.render : Exn → String
  | .http status detail => toString status ++ ": " ++ detail
  | .other msg => msg

/-- The multipart upload request: `file.filename`, the bytes returned by
`await file.read()`, and the optional `session_id` form field. -/
structure UploadRequest where
  filename : String
  content_bytes : List Nat
  session_id : Option String

/-- A row returned by the store; only the `id` field is read. -/
structure Row where
  id : Nat
deriving DecidableEq

/-- The `insert_data` dictionary assembled at lines 101-109.  `α` is the
element type of the embedding vector (opaque floats, never inspected). -/
structure InsertData (α : Type) where
  session_id : String
  content : String
  content_hash : String
  message : Option String
  embedding : α
  metadata : List (String × String)
  file_name : String
deriving DecidableEq

/-- The object returned by `supabase...insert(...).execute()`: an optional
error (carrying its `.message`) and the inserted rows. -/
structure InsertResult where
  error : Option String
  data : List Row
deriving DecidableEq

/-- The external collaborators of the handler, as oracles. -/
structure Extern (α : Type) where
  extract_pages : List Nat → Except String (List String)
  select_by_hash : String → Except String (List Row)
  get_embedding : String → Except String α
  insert : InsertData α → Except String InsertResult

/-- Which external steps ran, and the exact row passed to the insert. -/
structure Trace (α : Type) where
  extract_called : Bool
  hash_called : Bool
  lookup_called : Bool
  embed_called : Bool
  insert_arg : Option (InsertData α)
deriving DecidableEq

/-- A JSON body returned with HTTP 200. -/
inductive Body where
  | msgOnly (message : String)
  | created (message : String) (id : Nat)
deriving DecidableEq

/-- The HTTP outcome of the handler: a 200 body, or an `HTTPException`
turned into `{"detail": detail}` with the given status. -/
inductive Outcome where
  | ok (body : Body)
  | err (status : Nat) (detail : String)
deriving DecidableEq

/-- Python `session_id or "default"` (line 102): `None` and `""` are falsy. -/
def pyOrDefault : Option String → String
  | none => "default"
  | some s => if s = "" then "default" else s

/-- The `try:` block of `upload_pdf` (lines 81-116): either a 200 body or
the exception that escapes the block, together with the call trace. -/
def upload_try (ext : Extern α) (req : UploadRequest) :
    Except Exn Body × Trace α :=
  if strEndsWith req.filename ".pdf" = false then
    (.error (.http 400 "Only PDF files are allowed."),
     ⟨false, false, false, false, none⟩)
  else
    match ext.extract_pages req.content_bytes with
    | .error m => (.error (.other m), ⟨true, false, false, false, none⟩)
    | .ok pages =>
      let text := extract_text_from_pdf pages
      let content_hash := hash_content text
      match ext.select_by_hash content_hash with
      | .error m => (.error (.other m), ⟨true, true, false, false, none⟩)
      | .ok existing =>
        if 0 < existing.length then
          (.ok (.msgOnly "This PDF content already exists in the database."),
           ⟨true, true, true, false, none⟩)
        else
          match ext.get_embedding text with
          | .error m => (.error (.other m), ⟨true, true, true, true, none⟩)
          | .ok vec =>
            let d : InsertData α :=
              ⟨pyOrDefault req.session_id, text, content_hash, none, vec, [],
               req.filename⟩
            match ext.insert d with
            | .error m => (.error (.other m), ⟨true, true, true, true, some d⟩)
            | .ok result =>
              match result.error with
              | some emsg =>
                  (.error (.http 500 ("Supabase insert error: " ++ emsg)),
                   ⟨true, true, true, true, some d⟩)
              | none =>
                match result.data with
                | [] => (.error (.other "list index out of range"),
                         ⟨true, true, true, true, some d⟩)
                | r :: _ =>
                    (.ok (.created "PDF uploaded and embedded successfully." r.id),
                     ⟨true, true, true, true, some d⟩)

/-- `upload_pdf` (lines 78-120): the `try:` block followed by
`except Exception as e: raise HTTPException(500, f"Internal server error: {e}")`,
which FastAPI renders as a 500 response. -/
def upload_pdf (ext : Extern α) (req : UploadRequest) : Outcome × Trace α :=
  match upload_try ext req with
  | (.ok body, t) => (.ok body, t)
  | (.error e, t) => (.err 500 ("Internal server error: " ++ e.render), t)

/-! ### Sample collaborators used to instantiate the handler theorems -/

/-- Collaborators that all succeed: one page reading `"Hello"`, no
existing row, embedding `[1]`, insert assigning id `7`. -/
def extOkSample : Extern (List Int) :=
  ⟨fun _ => .ok ["Hello"], fun _ => .ok [], fun _ => .ok [1],
   fun _ => .ok ⟨none, [⟨7⟩]⟩⟩

/-- Collaborators where the duplicate lookup finds row `3`. -/
def extDupSample : Extern (List Int) :=
  ⟨fun _ => .ok ["Hello"], fun _ => .ok [⟨3⟩], fun _ => .ok [1],
   fun _ => .ok ⟨none, [⟨7⟩]⟩⟩

/-- Collaborators where PDF parsing raises. -/
def extParseFailSample : Extern (List Int) :=
  ⟨fun _ => .error "EOF marker not found", fun _ => .ok [], fun _ => .ok [1],
   fun _ => .ok ⟨none, [⟨7⟩]⟩⟩

/-- Collaborators where the embedding provider raises. -/
def extEmbedFailSample : Extern (List Int) :=
  ⟨fun _ => .ok ["Hello"], fun _ => .ok [], fun _ => .error "provider outage",
   fun _ => .ok ⟨none, [⟨7⟩]⟩⟩

/-- C1 (code bug): uploading `report.txt` does NOT produce the claimed
400 response: the `HTTPException(400, "Only PDF files are allowed.")`
raised inside the `try:` block is caught by `except Exception` and
re-raised as a 500 whose detail wraps the original message.  The
remainder of the claim holds: no extraction, hashing, lookup, embedding
or insert is performed (all trace fields are `false`/`none`). -/
theorem upload_non_pdf_rejected_with_500 :
    upload_pdf extOkSample ⟨"report.txt", [1, 2, 3], none⟩ =
      (.err 500 "Internal server error: 400: Only PDF files are allowed.",
       ⟨false, false, false, false, none⟩) := by
  decide

/-- C2 (code bug): an unparseable byte buffer named `broken.pdf` makes
the extractor raise; the exception reaches the generic handler and the
response is a 500 (not the claimed 400), though its detail does include
the extractor's failure reason and no row is inserted. -/
theorem upload_unparseable_pdf_500 :
    upload_pdf extParseFailSample ⟨"broken.pdf", [37, 80, 68], none⟩ =
      (.err 500 "Internal server error: EOF marker not found",
       ⟨true, false, false, false, none⟩) := by
  decide

/-- C3: every exception escaping the `try:` block — the 400
`HTTPException` for a bad filename and parser failures included — is
caught by `except Exception` and re-raised as a 500 `HTTPException`
whose detail is `"Internal server error: "` followed by `str(e)`;
consequently every error response of the handler has status 500. -/
theorem upload_exceptions_become_500 {α : Type} (ext : Extern α) (req : UploadRequest) :
    (∀ e t, upload_try ext req = (.error e, t) →
      upload_pdf ext req = (.err 500 ("Internal server error: " ++ e.render), t)) ∧
    (∀ status detail, (upload_pdf ext req).1 = .err status detail →
      status = 500 ∧ ∃ m, detail = "Internal server error: " ++ m) := by
  constructor
  · intro e t h
    simp [upload_pdf, h]
  · intro status detail h
    rcases hu : upload_try ext req with ⟨res, t⟩
    cases res with
    | ok body => simp [upload_pdf, hu] at h
    | error e =>
      simp [upload_pdf, hu] at h
      exact ⟨h.1.symm, e.render, h.2.symm⟩

/-- Witness for C3: with the sample collaborators and a `.txt` filename
the `try:` block fails with the 400 exception, and the handler's
response is the wrapped 500. -/
theorem upload_exceptions_become_500_witness :
    upload_pdf extOkSample ⟨"notes.txt", [], none⟩ =
      (.err 500 ("Internal server error: " ++
        Exn.render (.http 400 "Only PDF files are allowed.")),
       ⟨false, false, false, false, none⟩) :=
  (upload_exceptions_become_500 extOkSample ⟨"notes.txt", [], none⟩).1
    (.http 400 "Only PDF files are allowed.")
    ⟨false, false, false, false, none⟩ rfl

/-- C4: when the duplicate lookup returns at least one row for the
content hash, the handler returns HTTP 200 with the body
`{"message": "This PDF content already exists in the database."}` and
neither calls the embedding client nor inserts a row. -/
theorem upload_duplicate_short_circuit {α : Type} (ext : Extern α)
    (req : UploadRequest) (pages : List String) (rows : List Row)
    (hname : strEndsWith req.filename ".pdf" = true)
    (hext : ext.extract_pages req.content_bytes = .ok pages)
    (hsel : ext.select_by_hash (hash_content (extract_text_from_pdf pages)) = .ok rows)
    (hrows : rows ≠ []) :
    upload_pdf ext req =
      (.ok (.msgOnly "This PDF content already exists in the database."),
       ⟨true, true, true, false, none⟩) := by
  have hlen : 0 < rows.length := List.length_pos.mpr hrows
  simp [upload_pdf, upload_try, hname, hext, hsel, hlen]

/-- Witness for C4: with a collaborator whose lookup finds row `3`,
uploading `a.pdf` answers with the duplicate message and an untouched
embedding client and store. -/
theorem upload_duplicate_short_circuit_witness :
    upload_pdf extDupSample ⟨"a.pdf", [], none⟩ =
      (.ok (.msgOnly "This PDF content already exists in the database."),
       ⟨true, true, true, false, none⟩) :=
  upload_duplicate_short_circuit extDupSample ⟨"a.pdf", [], none⟩
    ["Hello"] [⟨3⟩] (by decide) rfl rfl (by decide)

/-- The accumulation loop appends `pageConcat` to its accumulator. -/
theorem extractLoop_append (pages : List String) :
    ∀ acc, extractLoop pages acc = acc ++ pageConcat pages := by
  induction pages with
  | nil => intro acc; simp [extractLoop, pageConcat, String.append_empty]
  | cons p rest ih =>
    intro acc
    by_cases hp : p = ""
    · simp [extractLoop, pageConcat, hp, ih]
    · simp [extractLoop, pageConcat, hp, ih, String.append_assoc]

/-- C6: the extractor output is the page texts concatenated in document
order, each non-empty page text followed by one newline, empty pages
contributing nothing, the result stripped of leading and trailing
whitespace; for two consecutive non-empty pages exactly the one appended
newline separates their texts. -/
theorem extract_text_concat_spec (pages : List String) :
    extract_text_from_pdf pages = pyStrip (pageConcat pages) ∧
    (∀ a b : String, a ≠ "" → b ≠ "" →
      extract_text_from_pdf [a, b] = pyStrip (a ++ "\n" ++ (b ++ "\n"))) := by
  constructor
  · rw [extract_text_from_pdf, extractLoop_append, String.empty_append]
  · intro a b ha hb
    rw [extract_text_from_pdf, extractLoop_append, String.empty_append]
    simp [pageConcat, ha, hb, String.append_assoc, String.append_empty]

/-- Witness for C6: a three-page document with an empty middle page
concatenates to `"Hello\nWorld"`, and the two-page form matches the
single-newline shape. -/
theorem extract_text_concat_spec_witness :
    extract_text_from_pdf ["Hello", "", "World"] =
      pyStrip (pageConcat ["Hello", "", "World"]) ∧
    extract_text_from_pdf ["Hello", "World"] =
      pyStrip ("Hello" ++ "\n" ++ ("World" ++ "\n")) ∧
    extract_text_from_pdf ["Hello", "", "World"] = "Hello\nWorld" :=
  ⟨(extract_text_concat_spec ["Hello", "", "World"]).1,
   (extract_text_concat_spec ["Hello", "World"]).2 "Hello" "World"
     (by decide) (by decide),
   by decide⟩

/-- C7: on a successful insert the stored record carries the supplied
session id when present and non-empty and `"default"` otherwise, the
full extracted text, the computed hash, a null message, an empty
metadata mapping and the original filename; the response is 200 with the
success message and the store-assigned id of the first returned row. -/
theorem upload_success_record {α : Type} (ext : Extern α)
    (req : UploadRequest) (pages : List String) (vec : α)
    (res : InsertResult) (r : Row) (rest : List Row)
    (hname : strEndsWith req.filename ".pdf" = true)
    (hext : ext.extract_pages req.content_bytes = .ok pages)
    (hsel : ext.select_by_hash (hash_content (extract_text_from_pdf pages)) = .ok [])
    (hemb : ext.get_embedding (extract_text_from_pdf pages) = .ok vec)
    (hins : ext.insert ⟨pyOrDefault req.session_id, extract_text_from_pdf pages,
        hash_content (extract_text_from_pdf pages), none, vec, [],
        req.filename⟩ = .ok res)
    (herr : res.error = none)
    (hdata : res.data = r :: rest) :
    upload_pdf ext req =
      (.ok (.created "PDF uploaded and embedded successfully." r.id),
       ⟨true, true, true, true,
        some ⟨pyOrDefault req.session_id, extract_text_from_pdf pages,
          hash_content (extract_text_from_pdf pages), none, vec, [],
          req.filename⟩⟩) ∧
    (∀ s, req.session_id = some s → s ≠ "" → pyOrDefault req.session_id = s) ∧
    ((req.session_id = none ∨ req.session_id = some "") →
      pyOrDefault req.session_id = "default") := by
  refine ⟨?_, ?_, ?_⟩
  · simp [upload_pdf, upload_try, hname, hext, hsel, hemb, hins, herr, hdata]
  · intro s hs hne
    simp [pyOrDefault, hs, hne]
  · rintro (hs | hs) <;> simp [pyOrDefault, hs]

/-- Witness for C7: with the all-success collaborators and session id
`"sess"`, uploading `doc.pdf` answers 200 with id 7 and the recorded row
has exactly the claimed fields. -/
theorem upload_success_record_witness :
    upload_pdf extOkSample ⟨"doc.pdf", [], some "sess"⟩ =
      (.ok (.created "PDF uploaded and embedded successfully." 7),
       ⟨true, true, true, true,
        some ⟨pyOrDefault (some "sess"), extract_text_from_pdf ["Hello"],
          hash_content (extract_text_from_pdf ["Hello"]), none, [1], [],
          "doc.pdf"⟩⟩) ∧
    pyOrDefault (some "sess") = "sess" :=
  ⟨(upload_success_record extOkSample ⟨"doc.pdf", [], some "sess"⟩
      ["Hello"] [1] ⟨none, [⟨7⟩]⟩ ⟨7⟩ [] (by decide) rfl rfl rfl rfl rfl rfl).1,
   (upload_success_record extOkSample ⟨"doc.pdf", [], some "sess"⟩
      ["Hello"] [1] ⟨none, [⟨7⟩]⟩ ⟨7⟩ [] (by decide) rfl rfl rfl rfl rfl rfl).2.1
     "sess" rfl (by decide)⟩

/-- C8: when the embedding provider call raises, the handler responds
500 with a detail that carries the provider's failure message, and the
store insert is never invoked (`insert_arg = none`). -/
theorem upload_embed_failure_500 {α : Type} (ext : Extern α)
    (req : UploadRequest) (pages : List String) (m : String)
    (hname : strEndsWith req.filename ".pdf" = true)
    (hext : ext.extract_pages req.content_bytes = .ok pages)
    (hsel : ext.select_by_hash (hash_content (extract_text_from_pdf pages)) = .ok [])
    (hemb : ext.get_embedding (extract_text_from_pdf pages) = .error m) :
    upload_pdf ext req =
      (.err 500 ("Internal server error: " ++ m),
       ⟨true, true, true, true, none⟩) := by
  simp [upload_pdf, upload_try, hname, hext, hsel, hemb, Exn.render]

/-- Witness for C8: with a collaborator whose embedding call raises
`"provider outage"`, uploading `doc.pdf` answers 500 surfacing that
message and no insert happens. -/
theorem upload_embed_failure_500_witness :
    upload_pdf extEmbedFailSample ⟨"doc.pdf", [], none⟩ =
      (.err 500 ("Internal server error: " ++ "provider outage"),
       ⟨true, true, true, true, none⟩) :=
  upload_embed_failure_500 extEmbedFailSample ⟨"doc.pdf", [], none⟩
    ["Hello"] "provider outage" (by decide) rfl rfl rfl

/-- C10 counterexample: with all three required variables absent the
startup hook completes normally, merely logging `NOT SET` for each — the
process starts, refuting the claim that missing configuration is fatal. -/
theorem startup_missing_env_not_fatal :
    (fun _ => (none : Option String)) "OPENAI_API_KEY" = none ∧
    startup_event (fun _ => none) =
      .ok ["OPENAI_API_KEY: NOT SET", "SUPABASE_URL: NOT SET",
           "SUPABASE_SERVICE_ROLE_KEY: NOT SET"] :=
  ⟨rfl, rfl⟩

/-- C10 amended: startup never fails, whatever the environment; an
absent required variable is reported in the startup log as `NOT SET`
and the process still starts. -/
theorem startup_logs_and_completes (env : String → Option String) :
    (startup_event env).isOk = true ∧
    (env "OPENAI_API_KEY" = none → ∀ logs, startup_event env = .ok logs →
      "OPENAI_API_KEY: NOT SET" ∈ logs) ∧
    (env "SUPABASE_URL" = none → ∀ logs, startup_event env = .ok logs →
      "SUPABASE_URL: NOT SET" ∈ logs) ∧
    (env "SUPABASE_SERVICE_ROLE_KEY" = none → ∀ logs, startup_event env = .ok logs →
      "SUPABASE_SERVICE_ROLE_KEY: NOT SET" ∈ logs) := by
  refine ⟨rfl, ?_, ?_, ?_⟩ <;>
    · intro h logs hlogs
      simp only [startup_event, Except.ok.injEq] at hlogs
      subst hlogs
      simp [h, setFlag, pyTruthy]

/-- Witness for C10 amended: at the all-absent environment, startup
completes and the `SUPABASE_URL` log line reads `NOT SET`. -/
theorem startup_logs_and_completes_witness :
    (startup_event (fun _ => none)).isOk = true ∧
    "SUPABASE_URL: NOT SET" ∈
      ["OPENAI_API_KEY: NOT SET", "SUPABASE_URL: NOT SET",
       "SUPABASE_SERVICE_ROLE_KEY: NOT SET"] :=
  ⟨(startup_logs_and_completes (fun _ => none)).1,
   (startup_logs_and_completes (fun _ => none)).2.2.1 rfl _ rfl⟩
